import Mathlib

/-!
Verification of the wa-worker multi-session supervisor (the elaborated
variant in `src/unnamed/part_003`) against its natural-language
specification.

The JavaScript source is shallowly embedded: each class method that a
claim depends on becomes a pure Lean function over an explicit state,
and asynchronous side effects (HTTP posts, file deletion, callbacks,
timers) are recorded as an explicit event list.  Times are `Nat`
milliseconds, JS strings are Lean `String`s, and JS objects/Maps whose
keys are strings are association lists in insertion order (property and
`Map` writes overwrite in place, fresh keys append, matching JS
enumeration order).  JS `undefined`/`null` string fields are `Option
String`; JS string truthiness (empty string is falsy) is captured by
`jsOrStr` / emptiness tests.  Environment variables are left at their
documented defaults, which is what every claim quantifies over.
-/

namespace WaWorker

/-- ASCII lower-casing of one character, as applied by JS
`String.prototype.toLowerCase` to the ASCII error messages the worker
matches on. -/
def charLower (c : Char) : Char :=
  if 'A' ≤ c ∧ c ≤ 'Z' then Char.ofNat (c.toNat + 32) else c

/-- `s.toLowerCase()` for the ASCII strings involved in error matching. -/
def strLower (s : String) : String :=
  String.mk (s.data.map charLower)

/-- Substring test on character lists: JS `String.prototype.includes`. -/
def listContainsSub : List Char → List Char → Bool
  | [], sub => sub.isEmpty
  | c :: t, sub => sub.isPrefixOf (c :: t) || listContainsSub t sub

/-- JS `haystack.includes(needle)`. -/
def strIncludes (s sub : String) : Bool :=
  listContainsSub s.data sub.data

/-- JS `s.endsWith(suffix)`. -/
def jsEndsWith (s suffixStr : String) : Bool :=
  suffixStr.data.isSuffixOf s.data

/-- Whitespace recognised by the trims the worker performs (its inputs
are JIDs and ids, where only plain spaces and line breaks can occur). -/
def isWsp (c : Char) : Bool :=
  c = ' ' ∨ c = '\t' ∨ c = '\n' ∨ c = '\r'

/-- JS `s.trim()`. -/
def jsTrim (s : String) : String :=
  String.mk (((s.data.dropWhile isWsp).reverse.dropWhile isWsp).reverse)

/-- JS `a || b` on two possibly-missing strings: a present non-empty
string wins, otherwise the right operand is used (`""` is falsy). -/
def jsOrStr (a b : Option String) : Option String :=
  match a with
  | some s => if s = "" then b else some s
  | none => b

/-- JS object-property / `Map.prototype.set` write on a string-keyed
association list: an existing key is overwritten in place, a fresh key
is appended (JS preserves insertion order). -/
def mapSet {α : Type} (m : List (String × α)) (k : String) (v : α) :
    List (String × α) :=
  if m.any (fun e => e.1 = k) then
    m.map (fun e => if e.1 = k then (k, v) else e)
  else
    m ++ [(k, v)]

/-- JS object-property / `Map.prototype.get` read. -/
def lookupKV {α : Type} (m : List (String × α)) (k : String) : Option α :=
  (m.find? (fun e => e.1 = k)).map (fun e => e.2)

/-- JS `Map.prototype.delete` / `delete obj[k]`. -/
def mapDelete {α : Type} (m : List (String × α)) (k : String) :
    List (String × α) :=
  m.filter (fun e => ¬ e.1 = k)

/-- Observable side effects of the worker: HTTP posts to the control
plane, callbacks, file-system mutations, and sleeps.  The embedded
methods return the list of effects they perform, in order. -/
inductive Ev
  | sendAttempt (jid : String)
  | refreshSession (iid jid trigger : String)
  | sleep (ms : Nat)
  | markSent (messageId : String)
  | markFailed (messageId reason : String)
  | statusPost (iid status : String)
  | authWipe (iid : String)
  | resetRuntimeCall (iid : String)
  | ensureRunningCall (iid : String)
  | onLockLost (iid : String)
  | lockRelease (iid reason : String)
  | logRenewError (iid : String)
  | sendInvoked (connected : Bool) (sock : Option Nat)
  deriving DecidableEq, Repr

/-! ### Constants (environment variables at their defaults) -/

def DECRYPT_RETRY_MAX_ATTEMPTS : Nat := 3

def SESSION_REFRESH_BACKOFF_MS : List Nat := [1000, 2000, 5000]

def BAD_MAC_WINDOW_MS : Nat := 60000

def BAD_MAC_THRESHOLD : Nat := 20

def BAD_MAC_COOLDOWN_MS : Nat := 300000

def CONTACT_RESOLVE_ERROR_COOLDOWN_MS : Nat := 60000

def CONTACT_RESOLVE_DUPLICATE_COOLDOWN_MS : Nat := 300000

def FALLBACK_MAX_ACTIVE_INSTANCES : Int := 0

/-- `<hostname>:<pid>` of this process; the claims do not depend on its
actual value. -/
def PROCESS_OWNER_ID : String := "worker:1"

def SIGNAL_SESSION_ERROR_SNIPPETS : List String :=
  ["bad mac", "failed to decrypt message", "no matching sessions found"]

/-- `isSignalSessionError`: the serialized message, lower-cased,
contains one of the signal-session snippets. -/
def isSignalSessionError (msg : String) : Bool :=
  SIGNAL_SESSION_ERROR_SNIPPETS.any (fun snippet => strIncludes (strLower msg) snippet)

/-! ### IdentityAliasStore (claims C7, C4, C5)

`this.data` of an `IdentityAliasStore` after `load()`: two JS objects
mapping strings to strings.  File persistence (`load`/`save`) is
orthogonal to the claims and not modelled; `rememberPair` and
`resolveCanonical` act on the in-memory data. -/

structure AliasData where
  lid_to_pn : List (String × String)
  pn_to_lid : List (String × String)
  deriving DecidableEq, Repr

def AliasData.empty : AliasData := ⟨[], []⟩

/-- `IdentityAliasStore.rememberPair(jidLid, jidPn)`: validates the
trimmed pair, computes `changed`, writes both directions.  Returns the
updated data and the `changed` flag. -/
def rememberPair (d : AliasData) (jidLid jidPn : String) : AliasData × Bool :=
  let lid := jsTrim jidLid
  let pn := jsTrim jidPn
  if lid = "" ∨ pn = "" ∨ ¬ jsEndsWith lid "@lid" ∨ ¬ jsEndsWith pn "@s.whatsapp.net" then
    (d, false)
  else
    let changed : Bool :=
      ¬ (lookupKV d.lid_to_pn lid = some pn) ∨ ¬ (lookupKV d.pn_to_lid pn = some lid)
    (⟨mapSet d.lid_to_pn lid pn, mapSet d.pn_to_lid pn lid⟩, changed)

/-- `IdentityAliasStore.resolveCanonical(jid, fallbackPn)`. -/
def resolveCanonical (d : AliasData) (jid : String) (fallbackPn : Option String) : String :=
  let normalizedJid := jsTrim jid
  let normalizedFallbackPn := jsTrim (fallbackPn.getD "")
  if jsEndsWith normalizedFallbackPn "@s.whatsapp.net" then normalizedFallbackPn
  else if normalizedJid = "" then normalizedJid
  else if jsEndsWith normalizedJid "@s.whatsapp.net" then normalizedJid
  else if jsEndsWith normalizedJid "@lid" then
    (lookupKV d.lid_to_pn normalizedJid).getD normalizedJid
  else normalizedJid

/-- The spec's invariant: `lid_to_pn` and `pn_to_lid` are consistent
inverses of each other. -/
def Inverses (d : AliasData) : Prop :=
  (∀ e ∈ d.lid_to_pn, lookupKV d.pn_to_lid e.2 = some e.1) ∧
  (∀ e ∈ d.pn_to_lid, lookupKV d.lid_to_pn e.2 = some e.1)

instance (d : AliasData) : Decidable (Inverses d) := by
  unfold Inverses
  exact instDecidableAnd

/-- Folding a sequence of `rememberPair` calls over a store. -/
def applyPairs (pairs : List (String × String)) (d : AliasData) : AliasData :=
  pairs.foldl (fun acc p => (rememberPair acc p.1 p.2).1) d

/-! ### OutboundQueueRunner (claims C4, C5)

A queued message record.  JS fields that can be `undefined`/`null` are
modelled as `""` (the absent case), matching the source's falsiness
tests (`!queued?.id`, `!queued?.body` …). -/

structure QueuedMsg where
  id : String
  «to» : String
  body : String
  media_url : String
  deriving DecidableEq, Repr

/-- `/^\d+-\d+$/.test(s)` on the character list. -/
def digitsDashDigits (l : List Char) : Bool :=
  let ds := l.takeWhile (fun c => c.isDigit)
  let rest := l.drop ds.length
  ¬ ds.isEmpty &&
    match rest with
    | '-' :: tail => ¬ tail.isEmpty && tail.all (fun c => c.isDigit)
    | _ => false

/-- `normalizeDigits`: strip every non-digit character. -/
def normalizeDigits (s : String) : String :=
  String.mk (s.data.filter (fun c => c.isDigit))

/-- Result record of destination resolution. -/
structure DestResult where
  originalTo : String
  toNormalized : Option String
  error : Option String
  deriving DecidableEq, Repr

/-- `normalizeOutboundTo(message)`. -/
def normalizeOutboundTo (msg : QueuedMsg) : DestResult :=
  let originalTo := jsTrim msg.«to»
  if originalTo = "" then
    ⟨originalTo, none, some "missing-to"⟩
  else if strIncludes originalTo "@g.us" || strIncludes originalTo "@s.whatsapp.net" then
    ⟨originalTo, some originalTo, none⟩
  else if ¬ (normalizeDigits originalTo) = "" ∧ normalizeDigits originalTo = originalTo then
    ⟨originalTo, some (normalizeDigits originalTo ++ "@s.whatsapp.net"), none⟩
  else if digitsDashDigits originalTo.data then
    ⟨originalTo, some (originalTo ++ "@g.us"), none⟩
  else
    ⟨originalTo, some originalTo, none⟩

/-- Response of `GET /contacts/primary-jid`; either field may be
missing. -/
structure PrimaryJidResp where
  jid_pn : Option String
  jid : Option String
  deriving DecidableEq, Repr

/-- `OutboundQueueRunner.resolveDestination(queued)`; the HTTP response
of the primary-jid call (or `none` when the call returned no object) is
passed in explicitly. -/
def resolveDestination (msg : QueuedMsg) (primaryResp : Option PrimaryJidResp) :
    DestResult :=
  let originalTo := jsTrim msg.«to»
  if jsEndsWith originalTo "@lid" then
    let jidPn := jsTrim ((jsOrStr (primaryResp.bind (fun r => r.jid_pn))
      (primaryResp.bind (fun r => r.jid))).getD "")
    if jidPn = "" then
      ⟨originalTo, none, some "lid_without_mapping"⟩
    else
      ⟨originalTo, some jidPn, none⟩
  else
    let normalized := normalizeOutboundTo msg
    match normalized.error with
    | some e => ⟨normalized.originalTo, normalized.toNormalized,
        some ("invalid-destination:" ++ e)⟩
    | none => normalized

/-- `OutboundQueueRunner.sendWithSessionRecovery` retry loop, from the
`while (attempt <= DECRYPT_RETRY_MAX_ATTEMPTS)` header.  `oc n` is the
outcome of the `n`-th `sendOutboundMessage` call (`.ok` carries the
returned `wa_message_id`), `aliasData` the session's loaded
identity-alias data, `iid` the instance id.  The loop runs while
`attempt ≤ DECRYPT_RETRY_MAX_ATTEMPTS`; `fuel` counts the iterations
still allowed by that condition (`MAX + 1 - attempt`), so `fuel = 0` is
the loop exit that throws `decrypt-retry-loop-exhausted`.  Returns the
result together with the event trace (send attempts, `refreshSession`
posts, sleeps). -/
def sendRecoverGo (aliasData : AliasData) (iid : String) (toNorm : String)
    (oc : Nat → Except String String) :
    Nat → Nat → Except String String × List Ev
  | 0, _ => (.error "decrypt-retry-loop-exhausted", [])
  | fuel + 1, attempt =>
    let targetJid := resolveCanonical aliasData toNorm none
    match oc attempt with
    | .ok r => (.ok r, [.sendAttempt targetJid])
    | .error e =>
      if ¬ isSignalSessionError e then
        (.error e, [.sendAttempt targetJid])
      else
        let isNoMatchingSession := strIncludes (strLower e) "no matching sessions found"
        if isNoMatchingSession ∧ attempt < DECRYPT_RETRY_MAX_ATTEMPTS then
          let backoffMs := SESSION_REFRESH_BACKOFF_MS.getD
            (min attempt (SESSION_REFRESH_BACKOFF_MS.length - 1)) 0
          -- refreshSessionForJid canonicalizes again and posts with
          -- trigger 'no_matching_sessions'
          let canonical := resolveCanonical aliasData targetJid none
          let next := sendRecoverGo aliasData iid toNorm oc fuel (attempt + 1)
          (next.1, .sendAttempt targetJid ::
            .refreshSession iid canonical "no_matching_sessions" ::
            .sleep backoffMs :: next.2)
        else
          (.error e, [.sendAttempt targetJid])

/-- `sendWithSessionRecovery(toNormalized, queued)` starts the loop at
`attempt = 0` with the full iteration budget. -/
def sendWithSessionRecovery (aliasData : AliasData) (iid : String) (toNorm : String)
    (oc : Nat → Except String String) : Except String String × List Ev :=
  sendRecoverGo aliasData iid toNorm oc (DECRYPT_RETRY_MAX_ATTEMPTS + 1) 0

/-- The body of `OutboundQueueRunner.tick` for one queued message:
validation, destination resolution, send with recovery, and the
mark-sent / mark-failed post.  `primaryResp` is the primary-jid
response consulted when `to` ends in `@lid`; `oc` the send outcomes. -/
def processMessage (aliasData : AliasData) (iid : String) (msg : QueuedMsg)
    (primaryResp : Option PrimaryJidResp) (oc : Nat → Except String String) :
    List Ev :=
  if msg.id = "" ∨ msg.«to» = "" ∨ (msg.body = "" ∧ msg.media_url = "") then
    if ¬ msg.id = "" then [.markFailed msg.id "malformed-message"] else []
  else
    let dest := resolveDestination msg primaryResp
    match dest.error with
    | some reason => [.markFailed msg.id reason]
    | none =>
      let sent := sendWithSessionRecovery aliasData iid (dest.toNormalized.getD "") oc
      match sent.1 with
      | .ok _ => sent.2 ++ [.markSent msg.id]
      | .error e => sent.2 ++ [.markFailed msg.id e]

/-- Number of send attempts recorded in an event trace. -/
def countSendAttempts (evs : List Ev) : Nat :=
  (evs.filter (fun e => match e with | .sendAttempt _ => true | _ => false)).length

/-- Number of `refreshSession` posts recorded in an event trace. -/
def countRefreshCalls (evs : List Ev) : Nat :=
  (evs.filter (fun e => match e with | .refreshSession _ _ _ => true | _ => false)).length

/-! ### ConnectionRunner Bad-MAC circuit breaker (claim C2)

The breaker-relevant slice of a ConnectionRunner's mutable state.  The
socket hand-over performed by `wipeAuthAndRestart` (ending the old
socket, nulling `this.sock`) has no bearing on the breaker claim and is
represented by the `intentionalStop` flag it sets plus the recorded
events. -/

structure BreakerState where
  badMacTimestamps : List Nat
  badMacBreakerUntil : Nat
  badMacBreakerRunning : Bool
  intentionalStop : Bool
  deriving DecidableEq, Repr

/-- `ConnectionRunner.registerSignalSessionError(errorLike, source)` at
time `now`, with the async `tripBadMacCircuitBreaker` /
`wipeAuthAndRestart` chain run to completion (its `.finally` resets
`badMacBreakerRunning`).  Returns the new state and the events: the
DISCONNECTED status post, the auth-directory removal, the
`resetRuntime` and the `ensureRunning` re-invocation. -/
def registerSignalSessionError (iid : String) (st : BreakerState) (now : Nat)
    (msg : String) : BreakerState × List Ev :=
  if ¬ isSignalSessionError msg then (st, [])
  else
    let ts := (st.badMacTimestamps ++ [now]).filter (fun t => now - t ≤ BAD_MAC_WINDOW_MS)
    let count := ts.length
    if count < BAD_MAC_THRESHOLD then
      ({ st with badMacTimestamps := ts }, [])
    else if st.badMacBreakerRunning ∨ now < st.badMacBreakerUntil then
      ({ st with badMacTimestamps := ts }, [])
    else
      ({ badMacTimestamps := [],
         badMacBreakerUntil := now + BAD_MAC_COOLDOWN_MS,
         badMacBreakerRunning := false,
         intentionalStop := true },
       [.statusPost iid "DISCONNECTED", .authWipe iid,
        .resetRuntimeCall iid, .ensureRunningCall iid])

/-! ### Contact-resolve cache (claims C8, C9) -/

structure CacheEntry where
  contactId : Option String
  expiresAt : Nat
  deriving DecidableEq, Repr

/-- `this.contactResolveCache`: a JS `Map` keyed by
`resolveCacheKey(instanceId, jid)`. -/
abbrev Cache : Type := List (String × CacheEntry)

/-- `resolveCacheKey(instanceId, jid)` = `` `${instanceId}:${jid}` ``. -/
def resolveCacheKey (instanceId jid : String) : String :=
  instanceId ++ ":" ++ jid

/-- `ConnectionRunner.getCachedContactResolve`: a hit past its expiry is
deleted and reported as a miss.  Returns the entry (if any) and the
possibly-shrunk cache. -/
def getCachedContactResolve (m : Cache) (now : Nat) (instanceId jid : String) :
    Option CacheEntry × Cache :=
  let key := resolveCacheKey instanceId jid
  match lookupKV m key with
  | none => (none, m)
  | some c =>
    if c.expiresAt ≤ now then (none, mapDelete m key)
    else (some c, m)

/-- `ConnectionRunner.cacheContactResolve`: insert, then — only when the
map has grown beyond 500 entries — delete the entries already expired
at `now`. -/
def cacheContactResolve (m : Cache) (now : Nat) (instanceId jid : String)
    (data : CacheEntry) : Cache :=
  let m1 : Cache := mapSet m (resolveCacheKey instanceId jid) data
  if 500 < m1.length then
    m1.filter (fun e => ¬ e.2.expiresAt ≤ now)
  else
    m1

/-- A JS error value as observed by the worker's helpers.  The chain
`error?.output?.statusCode || error?.data?.statusCode ||
error?.statusCode || error?.status` of `parseStatusCode` collapses to
the first defined status, modelled as one optional field. -/
structure ErrObj where
  statusCode : Option Nat
  message : String
  deriving DecidableEq, Repr

/-- `parseStatusCode(error)`. -/
def parseStatusCode (e : ErrObj) : Option Nat :=
  e.statusCode

/-- `hasDuplicateContactConflict(errorLike)`. -/
def hasDuplicateContactConflict (e : ErrObj) : Bool :=
  if parseStatusCode e = some 409 then true
  else
    let serialized := strLower e.message
    strIncludes serialized "contacts_instance_id_jid_key" ||
      (strIncludes serialized "duplicate key value" && strIncludes serialized "contacts")

/-- Response of `POST /contacts/resolve`. -/
structure ResolveContactResp where
  contact_id : Option String
  id : Option String
  deriving DecidableEq, Repr

/-- `ConnectionRunner.resolveSenderContactId({instanceId, contactJid,
pushName})` with the HTTP outcome passed in.  Returns the contact id
handed to the caller, the updated cache, and whether the HTTP call was
issued. -/
def resolveSenderContactId (m : Cache) (now : Nat) (instanceId contactJid : String)
    (outcome : Except ErrObj ResolveContactResp) :
    Option String × Cache × Bool :=
  if contactJid = "" then (none, m, false)
  else
    match getCachedContactResolve m now instanceId contactJid with
    | (some cached, m1) => (cached.contactId, m1, false)
    | (none, m1) =>
      match outcome with
      | .ok resolved =>
        let contactId := jsOrStr resolved.contact_id resolved.id
        (contactId,
         cacheContactResolve m1 now instanceId contactJid
           ⟨contactId, now + 24 * 60 * 60 * 1000⟩,
         true)
      | .error e =>
        if hasDuplicateContactConflict e then
          (none,
           cacheContactResolve m1 now instanceId contactJid
             ⟨none, now + CONTACT_RESOLVE_DUPLICATE_COOLDOWN_MS⟩,
           true)
        else
          (none,
           cacheContactResolve m1 now instanceId contactJid
             ⟨none, now + CONTACT_RESOLVE_ERROR_COOLDOWN_MS⟩,
           true)

/-! ### InstanceLockCoordinator (claims C1, C10)

An ownership entry models the `{instanceOwner, lockToken,
renewInterval}` record: the renewal timer exists exactly while the
entry does (`setOwnership` creates both together, `clearOwnership`
destroys both together), so deleting the entry is cancelling the
timer. -/

structure LockState where
  instanceOwner : String
  lockToken : Option String
  deriving DecidableEq, Repr

abbrev Ownership : Type := List (String × LockState)

/-- Raw body of an instance-lock HTTP response. -/
structure RawLockPayload where
  acquired : Option Bool
  lock_acquired : Option Bool
  instance_owner : Option String
  owner : Option String
  lock_token : Option String
  token : Option String
  deriving DecidableEq, Repr

structure ParsedLock where
  acquired : Bool
  owner : Option String
  lockToken : Option String
  deriving DecidableEq, Repr

/-- `parseLockPayload(payload)`: `??` on the booleans, `||` (string
falsiness) on owner and token. -/
def parseLockPayload (p : RawLockPayload) : ParsedLock :=
  { acquired := ((p.acquired).getD ((p.lock_acquired).getD false)),
    owner := jsOrStr p.instance_owner p.owner,
    lockToken := jsOrStr p.lock_token p.token }

/-- `hasOwnership(instanceId)`. -/
def hasOwnership (own : Ownership) (iid : String) : Bool :=
  (lookupKV own iid).isSome

/-- `setOwnership(instanceId, {instanceOwner, lockToken})`: the previous
timer (entry) is replaced by the new one. -/
def setOwnership (own : Ownership) (iid : String) (st : LockState) : Ownership :=
  mapSet own iid st

/-- `clearOwnership(instanceId, {releaseRemote})`: cancel the timer and
drop the entry; optionally post the remote release (whose HTTP errors
are swallowed). -/
def clearOwnership (own : Ownership) (iid : String) (releaseRemote : Bool) :
    Ownership × List Ev :=
  match lookupKV own iid with
  | none => (own, [])
  | some _ =>
    (mapDelete own iid,
     if releaseRemote then [.lockRelease iid "clear"] else [])

/-- `InstanceLockCoordinator.renew(instanceId)` with the HTTP outcome of
`renewInstanceLock` passed in.  An HTTP error propagates to the caller
(`Except.error`); `acquired=false` clears local ownership
(`releaseRemote:false`) and awaits `onLockLost`. -/
def renew (own : Ownership) (iid : String)
    (resp : Except ErrObj RawLockPayload) :
    Ownership × Except ErrObj Bool × List Ev :=
  match lookupKV own iid with
  | none => (own, .ok false, [])
  | some st =>
    match resp with
    | .error e => (own, .error e, [])
    | .ok payload =>
      let p := parseLockPayload payload
      if ¬ p.acquired then
        ((clearOwnership own iid false).1, .ok false,
         (clearOwnership own iid false).2 ++ [.onLockLost iid])
      else
        (mapSet own iid
          { instanceOwner := (p.owner).getD st.instanceOwner,
            lockToken := jsOrStr p.lockToken st.lockToken },
         .ok true, [])

/-- The scheduled renewal tick installed by `setOwnership`:
`renew(instanceId).catch(error => console.error(...))` — a rejected
renewal is only logged. -/
def renewTick (own : Ownership) (iid : String)
    (resp : Except ErrObj RawLockPayload) : Ownership × List Ev :=
  match renew own iid resp with
  | (own1, .error _, evs) => (own1, evs ++ [.logRenewError iid])
  | (own1, .ok _, evs) => (own1, evs)

/-- `InstanceLockCoordinator.release(instanceId, {reason})`: post the
remote release (errors swallowed), then clear local state. -/
def release (own : Ownership) (iid reason : String) : Ownership × Bool × List Ev :=
  match lookupKV own iid with
  | none => (own, false, [])
  | some _ =>
    ((clearOwnership own iid false).1, true,
     .lockRelease iid reason :: (clearOwnership own iid false).2)

/-- `InstanceLockCoordinator.acquire(instanceId)` with the HTTP outcome
passed in: a 404 is a logged skip, another HTTP error is rethrown,
`acquired=false` is a logged conflict, and success installs ownership
(and its renewal timer). -/
def acquire (own : Ownership) (iid : String)
    (resp : Except ErrObj RawLockPayload) :
    Ownership × Except ErrObj Bool × List Ev :=
  match resp with
  | .error e =>
    if (e.statusCode).getD 0 = 404 then (own, .ok false, [])
    else (own, .error e, [])
  | .ok payload =>
    let p := parseLockPayload payload
    if ¬ p.acquired then (own, .ok false, [])
    else
      (setOwnership own iid
        { instanceOwner := (p.owner).getD PROCESS_OWNER_ID,
          lockToken := p.lockToken },
       .ok true, [])

/-- `InstanceManager.ensureRunning(instanceId)`: acquire the lock when
not already owned, bail out on a busy runtime, connect, and on a
connect failure release the lock with reason `connect-failure` before
rethrowing.  `acquireResp` is the lock-acquire HTTP outcome (consulted
only when ownership is missing), `runtimeBusy` the value of
`runtime.isBusy() || runtime.sock`, and `connectOutcome` the outcome of
`runtime.connection.connect()`. -/
def ensureRunning (own : Ownership) (iid : String)
    (acquireResp : Except ErrObj RawLockPayload) (runtimeBusy : Bool)
    (connectOutcome : Except ErrObj Unit) :
    Ownership × Except ErrObj Bool × List Ev :=
  let afterLock : Ownership × Except ErrObj Bool × List Ev :=
    if ¬ hasOwnership own iid then
      match acquire own iid acquireResp with
      | (own1, .error e, evs) => (own1, .error e, evs)
      | (own1, .ok false, evs) => (own1, .ok false, evs)
      | (own1, .ok true, evs) => (own1, .ok true, evs)
    else (own, .ok true, [])
  match afterLock with
  | (own1, .error e, evs) => (own1, .error e, evs)
  | (own1, .ok false, evs) => (own1, .ok false, evs)
  | (own1, .ok true, evs) =>
    if runtimeBusy then (own1, .ok false, evs)
    else
      match connectOutcome with
      | .ok _ => (own1, .ok true, evs)
      | .error e =>
        let rel := release own1 iid "connect-failure"
        (rel.1, .error e, evs ++ rel.2.2)

/-! ### InstanceManager discovery (claim C3) -/

/-- An eligible-instance record after the `item?.id` filter; `priority`
is the `Number(instance.priority) || 0` value. -/
structure RawInstance where
  id : String
  priority : Int
  deriving DecidableEq, Repr

/-- An instance decorated with its original index, as built by
`instances.map((instance, index) => ({...instance, index}))`. -/
structure IndexedInstance where
  id : String
  priority : Int
  index : Nat
  deriving DecidableEq, Repr

def withIndex (instances : List RawInstance) : List IndexedInstance :=
  instances.enum.map (fun p => ⟨p.2.id, p.2.priority, p.1⟩)

/-- The order computed by the `stablePrioritize` comparator: higher
priority first, ties broken by the original index. -/
def prioBefore (a b : IndexedInstance) : Prop :=
  b.priority < a.priority ∨ (a.priority = b.priority ∧ a.index ≤ b.index)

instance : DecidableRel prioBefore := by
  intro a b
  unfold prioBefore
  infer_instance

instance : IsTotal IndexedInstance prioBefore := by
  constructor
  intro a b
  rcases lt_trichotomy a.priority b.priority with h | h | h
  · exact Or.inr (Or.inl h)
  · rcases Nat.le_total a.index b.index with h2 | h2
    · exact Or.inl (Or.inr ⟨h, h2⟩)
    · exact Or.inr (Or.inr ⟨h.symm, h2⟩)
  · exact Or.inl (Or.inl h)

instance : IsTrans IndexedInstance prioBefore := by
  constructor
  intro a b c hab hbc
  rcases hab with h1 | ⟨h1, h1i⟩ <;> rcases hbc with h2 | ⟨h2, h2i⟩
  · exact Or.inl (lt_trans h2 h1)
  · exact Or.inl (h2 ▸ h1)
  · exact Or.inl (by rw [h1]; exact h2)
  · exact Or.inr ⟨h1.trans h2, h1i.trans h2i⟩

/-- `InstanceManager.stablePrioritize(instances)`: decorate with the
original index and sort with the stable comparator (JS `Array.sort` is
stable; a stable sort by this comparator is insertion sort by
`prioBefore`). -/
def stablePrioritize (instances : List RawInstance) : List IndexedInstance :=
  List.insertionSort prioBefore (withIndex instances)

/-- `InstanceManager.getMaxActiveInstances(settings)`: the settings
value when it is a finite number, else the fallback, clamped at 0.
`settings = none` covers both an unreachable `/worker-settings` and a
non-numeric `max_active_instances`. -/
def getMaxActiveInstances (settings : Option Int) : Int :=
  max 0 (settings.getD FALLBACK_MAX_ACTIVE_INSTANCES)

/-- The target ids computed by one `discoveryCycle` from the parsed
settings and the filtered eligible list. -/
def discoveryTargets (settings : Option Int) (instances : List RawInstance) :
    List String :=
  let maxActiveInstances := getMaxActiveInstances settings
  let ordered := stablePrioritize instances
  let targetInstances := if 0 < maxActiveInstances
    then ordered.take maxActiveInstances.toNat else ordered
  targetInstances.map (fun i => i.id)

/-! ### Interleaving model of the outbound send loop (claim C6)

Claim C6 is about what can happen *between* the awaits of one
`tick` while connection events run on the same logical track.  The
world below carries the session state shared by
`OutboundQueueRunner.sendWithSessionRecovery`, the `connection.update`
close handler, and the reconnect path
(`scheduleReconnect → ensureRunning → connect`):

* `connected` / `connecting` — `ConnectionRunner.connected` /
  `.connecting` (the session is Open iff `connected`),
* `sock` — `runtime.sock` (socket identity, `none` when nulled),
* `retry` — the program counter of the in-flight recovery loop.

Each `Step` is one of the synchronous blocks the event loop can run
next; guards that do not hold make the step a no-op, so every step list
is a legal schedule.  `Ev.sendInvoked` records that
`this.runtime.sock.sendMessage` was reached with the given connection
flag and socket; when `runtime.sock` is null the member access throws a
TypeError *before* any send, so no event is recorded and the loop
terminates with that error. -/

inductive RetryPC
  | before (attempt : Nat)
  | sleeping (attempt : Nat)
  | done
  deriving DecidableEq, Repr

structure World where
  connected : Bool
  connecting : Bool
  sock : Option Nat
  retry : RetryPC
  deriving DecidableEq, Repr

inductive Step
  /-- The recovery loop resumes at `before a`: canonicalize, then call
  `sendOutboundMessage`, whose outcome on attempt `a` is `oc a`. -/
  | retryRun
  /-- `sleep(backoffMs)` elapses: `sleeping a → before (a+1)`. -/
  | wake
  /-- The synchronous prefix of the `connection === 'close'` handler:
  `connecting=false; connected=false; outbound.stop(); sock=null;
  runtime.sock=null`. -/
  | closeEvt
  /-- The reconnect timer fires and `ensureRunning → connect` runs up to
  `this.runtime.sock = this.sock`: guarded by `isBusy()`/`runtime.sock`
  being clear, sets `connecting` and installs the new socket. -/
  | reconnect (newSock : Nat)
  deriving DecidableEq, Repr

def stepWorld (oc : Nat → Except String Unit) (w : World) : Step → World × List Ev
  | .retryRun =>
    match w.retry with
    | .before a =>
      if a ≤ DECRYPT_RETRY_MAX_ATTEMPTS then
        match w.sock with
        | none => ({ w with retry := .done }, [])
        | some s =>
          match oc a with
          | .ok _ => ({ w with retry := .done }, [.sendInvoked w.connected (some s)])
          | .error e =>
            if isSignalSessionError e ∧
                strIncludes (strLower e) "no matching sessions found" ∧
                a < DECRYPT_RETRY_MAX_ATTEMPTS then
              ({ w with retry := .sleeping a }, [.sendInvoked w.connected (some s)])
            else
              ({ w with retry := .done }, [.sendInvoked w.connected (some s)])
      else ({ w with retry := .done }, [])
    | _ => (w, [])
  | .wake =>
    match w.retry with
    | .sleeping a => ({ w with retry := .before (a + 1) }, [])
    | _ => (w, [])
  | .closeEvt =>
    if w.sock = none then (w, [])
    else ({ w with connected := false, connecting := false, sock := none }, [])
  | .reconnect newSock =>
    if ¬ w.connecting ∧ ¬ w.connected ∧ w.sock = none then
      ({ w with connecting := true, sock := some newSock }, [])
    else (w, [])

/-- Run a schedule, collecting all emitted events. -/
def runWorld (oc : Nat → Except String Unit) (w : World) : List Step → World × List Ev
  | [] => (w, [])
  | s :: rest =>
    let r := stepWorld oc w s
    let r2 := runWorld oc r.1 rest
    (r2.1, r.2 ++ r2.2)

/-- The state in which `tick` reaches `sendWithSessionRecovery`: the
session is Open (`connected` and a socket), the loop at attempt 0. -/
def openWorld : World :=
  { connected := true, connecting := false, sock := some 1, retry := .before 0 }

/-! ### Concrete-input builders -/

/-- A family of pairwise-distinct jids (`"", "a", "aa", …`) used to
drive the cache past its alleged size bound. -/
def replJid (n : Nat) : String :=
  String.mk (List.replicate n 'a')

/-- `cacheContactResolve` repeated over a list of jids (the effect of a
burst of distinct sender resolutions on one session). -/
def cacheInsertAll (m : Cache) (now : Nat) (instanceId : String)
    (data : CacheEntry) : List String → Cache
  | [] => m
  | j :: rest => cacheInsertAll (cacheContactResolve m now instanceId j data) now instanceId data rest

/-! ## Theorems

First the shared lemmas about the JS map embedding, then one theorem
(plus witness / counterexample) per claim. -/

theorem find?_append_single {α : Type} (m : List (String × α)) (x : String × α)
    (p : String × α → Bool) (hx : p x = false) :
    (m ++ [x]).find? p = m.find? p := by
  induction m with
  | nil => simp [List.find?, hx]
  | cons e t ih =>
    by_cases pe : p e = true
    · simp [List.find?, pe]
    · simp only [Bool.not_eq_true] at pe
      simpa [List.find?, pe] using ih

theorem find?_append_of_none {α : Type} (m l : List (String × α))
    (p : String × α → Bool) (hm : m.find? p = none) :
    (m ++ l).find? p = l.find? p := by
  induction m with
  | nil => simp
  | cons e t ih =>
    have he : p e = false := by
      simpa using List.find?_eq_none.mp hm e (by simp)
    have ht : t.find? p = none :=
      List.find?_eq_none.mpr (fun x hx => List.find?_eq_none.mp hm x (by simp [hx]))
    simpa [List.find?, he] using ih ht

theorem find?_overwrite_self {α : Type} (m : List (String × α)) (k : String) (v : α)
    (h : m.any (fun e => decide (e.1 = k)) = true) :
    (m.map (fun e => if e.1 = k then (k, v) else e)).find?
      (fun e => decide (e.1 = k)) = some (k, v) := by
  induction m with
  | nil => simp at h
  | cons e t ih =>
    by_cases he : e.1 = k
    · simp [List.find?, he]
    · simp only [List.any_cons, Bool.or_eq_true, decide_eq_true_eq] at h
      rcases h with h | h
      · exact absurd h he
      · simpa [List.find?, he] using ih (by simpa [List.any_eq_true] using h)

theorem find?_overwrite_ne {α : Type} (m : List (String × α)) (k k' : String) (v : α)
    (hne : ¬ k' = k) :
    (m.map (fun e => if e.1 = k then (k, v) else e)).find?
      (fun e => decide (e.1 = k')) = m.find? (fun e => decide (e.1 = k')) := by
  induction m with
  | nil => rfl
  | cons e t ih =>
    by_cases he : e.1 = k
    · have h1 : ¬ (k : String) = k' := fun hc => hne hc.symm
      have h2 : ¬ e.1 = k' := by rw [he]; exact h1
      simp [List.find?, he, h1, h2, ih]
    · have hfe : (if e.1 = k then (k, v) else e) = e := by rw [if_neg he]
      by_cases he' : e.1 = k'
      · have h1 : (e :: List.map (fun e => if e.1 = k then (k, v) else e) t).find?
            (fun e => decide (e.1 = k')) = some e :=
          List.find?_cons_of_pos _ (by simpa using he')
        have h2 : (e :: t).find? (fun e => decide (e.1 = k')) = some e :=
          List.find?_cons_of_pos _ (by simpa using he')
        simp only [List.map_cons, hfe]
        rw [h1, h2]
      · have h1 : (e :: List.map (fun e => if e.1 = k then (k, v) else e) t).find?
            (fun e => decide (e.1 = k')) =
            (List.map (fun e => if e.1 = k then (k, v) else e) t).find?
              (fun e => decide (e.1 = k')) :=
          List.find?_cons_of_neg _ (by simpa using he')
        have h2 : (e :: t).find? (fun e => decide (e.1 = k')) =
            t.find? (fun e => decide (e.1 = k')) :=
          List.find?_cons_of_neg _ (by simpa using he')
        simp only [List.map_cons, hfe]
        rw [h1, h2]
        exact ih

theorem lookupKV_eq_none_of_any_false {α : Type} (m : List (String × α)) (k : String)
    (h : ¬ m.any (fun e => decide (e.1 = k)) = true) :
    m.find? (fun e => decide (e.1 = k)) = none := by
  refine List.find?_eq_none.mpr ?_
  intro x hx
  simp only [List.any_eq_true, not_exists] at h
  intro hc
  exact h x ⟨hx, hc⟩

theorem lookupKV_mapSet_self {α : Type} (m : List (String × α)) (k : String) (v : α) :
    lookupKV (mapSet m k v) k = some v := by
  unfold mapSet lookupKV
  by_cases h : m.any (fun e => decide (e.1 = k)) = true
  · rw [if_pos h, find?_overwrite_self m k v h]
    rfl
  · rw [if_neg h, find?_append_of_none m _ _ (lookupKV_eq_none_of_any_false m k h)]
    simp [List.find?]

theorem lookupKV_mapSet_ne {α : Type} (m : List (String × α)) (k k' : String) (v : α)
    (hne : ¬ k' = k) :
    lookupKV (mapSet m k v) k' = lookupKV m k' := by
  unfold mapSet lookupKV
  by_cases h : m.any (fun e => decide (e.1 = k)) = true
  · rw [if_pos h, find?_overwrite_ne m k k' v hne]
  · have hx : (fun e => decide (e.1 = k')) (k, v) = false := by
      simp only [decide_eq_false_iff_not]
      exact fun hc => hne hc.symm
    rw [if_neg h, find?_append_single m (k, v) _ hx]

theorem mem_mapSet {α : Type} {m : List (String × α)} {k : String} {v : α}
    {x : String × α} (h : x ∈ mapSet m k v) :
    x = (k, v) ∨ (x ∈ m ∧ ¬ x.1 = k) := by
  unfold mapSet at h
  by_cases ha : m.any (fun e => decide (e.1 = k)) = true
  · rw [if_pos ha] at h
    rcases List.mem_map.mp h with ⟨e, hem, hfe⟩
    by_cases he : e.1 = k
    · left
      rw [if_pos he] at hfe
      exact hfe.symm
    · right
      rw [if_neg he] at hfe
      subst hfe
      exact ⟨hem, he⟩
  · rw [if_neg ha] at h
    rcases List.mem_append.mp h with h1 | h1
    · right
      refine ⟨h1, ?_⟩
      simp only [List.any_eq_true, not_exists] at ha
      intro hc
      exact ha x ⟨h1, by simpa using hc⟩
    · left
      simpa using h1

theorem find?_none_of_lookup_none {α : Type} (m : List (String × α)) (k : String)
    (h : lookupKV m k = none) :
    m.find? (fun e => decide (e.1 = k)) = none := by
  unfold lookupKV at h
  cases hf : m.find? (fun e => decide (e.1 = k)) with
  | none => rfl
  | some x => rw [hf] at h; simp at h

theorem length_mapSet_fresh {α : Type} (m : List (String × α)) (k : String) (v : α)
    (h : lookupKV m k = none) :
    (mapSet m k v).length = m.length + 1 := by
  unfold mapSet
  have hany : ¬ m.any (fun e => decide (e.1 = k)) = true := by
    intro hc
    rcases List.any_eq_true.mp hc with ⟨x, hx, hpx⟩
    exact (List.find?_eq_none.mp (find?_none_of_lookup_none m k h) x hx) hpx
  rw [if_neg hany]
  simp

theorem find?_filter_key {α : Type} (m : List (String × α)) (k : String)
    (x : String × α) (p : String × α → Bool)
    (h : m.find? (fun e => decide (e.1 = k)) = some x) (hp : p x = true) :
    (m.filter p).find? (fun e => decide (e.1 = k)) = some x := by
  induction m with
  | nil => simp [List.find?] at h
  | cons e t ih =>
    by_cases he : e.1 = k
    · simp only [List.find?, he, decide_True] at h
      have hex : e = x := by simpa using h
      subst hex
      simp [List.filter, hp, List.find?, he]
    · simp only [List.find?, he, decide_False] at h
      by_cases pe : p e = true
      · simp [List.filter, pe, List.find?, he, ih h]
      · simp only [Bool.not_eq_true] at pe
        simp [List.filter, pe, ih h]

theorem lookupKV_filter {α : Type} (m : List (String × α)) (k : String) (v : α)
    (p : String × α → Bool) (h : lookupKV m k = some v) (hp : p (k, v) = true) :
    lookupKV (m.filter p) k = some v := by
  unfold lookupKV at h ⊢
  cases hf : m.find? (fun e => decide (e.1 = k)) with
  | none => rw [hf] at h; simp at h
  | some x =>
    rw [hf] at h
    simp only [Option.map_some', Option.some.injEq] at h
    have hxk : x.1 = k := by
      have := List.find?_some hf
      simpa using this
    have hxkv : x = (k, v) := by
      cases x with
      | mk a b =>
        simp only at hxk h
        rw [hxk, h]
    rw [find?_filter_key m k x p hf (by rw [hxkv]; exact hp), hxkv]
    rfl

theorem lookupKV_mapDelete_self {α : Type} (m : List (String × α)) (k : String) :
    lookupKV (mapDelete m k) k = none := by
  unfold lookupKV mapDelete
  have h : (m.filter (fun e => decide (¬ e.1 = k))).find? (fun e => decide (e.1 = k)) = none := by
    refine List.find?_eq_none.mpr ?_
    intro x hx
    have := (List.mem_filter.mp hx).2
    simp only [decide_eq_true_eq] at this
    simpa using this
  rw [h]
  rfl

/-! ### Claim C7 -/

/-- One `rememberPair` call preserves the inverse invariant, provided
every pair ever remembered is drawn from a family `tp` in which no lid
is paired with two pns and no pn with two lids. -/
theorem rememberPair_inverses_step (tp : List (String × String)) (d : AliasData)
    (hc : ∀ p ∈ tp, ∀ q ∈ tp, (p.1 = q.1 ↔ p.2 = q.2))
    (hinv : Inverses d)
    (hfwd : ∀ e ∈ d.lid_to_pn, e ∈ tp)
    (hbwd : ∀ e ∈ d.pn_to_lid, (e.2, e.1) ∈ tp)
    (l p : String) (hmem : (jsTrim l, jsTrim p) ∈ tp) :
    Inverses (rememberPair d l p).1 ∧
    (∀ e ∈ (rememberPair d l p).1.lid_to_pn, e ∈ tp) ∧
    (∀ e ∈ (rememberPair d l p).1.pn_to_lid, (e.2, e.1) ∈ tp) := by
  unfold rememberPair
  by_cases hv : jsTrim l = "" ∨ jsTrim p = "" ∨
      ¬ jsEndsWith (jsTrim l) "@lid" = true ∨
      ¬ jsEndsWith (jsTrim p) "@s.whatsapp.net" = true
  · simp only [if_pos hv]
    exact ⟨hinv, hfwd, hbwd⟩
  · simp only [if_neg hv]
    refine ⟨⟨?_, ?_⟩, ?_, ?_⟩
    · intro e he
      rcases mem_mapSet he with rfl | ⟨hein, hne⟩
      · exact lookupKV_mapSet_self _ _ _
      · have hiff := hc e (hfwd e hein) (jsTrim l, jsTrim p) hmem
        have hne2 : ¬ e.2 = jsTrim p := fun hq => hne (hiff.mpr hq)
        rw [lookupKV_mapSet_ne _ _ _ _ hne2]
        exact hinv.1 e hein
    · intro e he
      rcases mem_mapSet he with rfl | ⟨hein, hne⟩
      · exact lookupKV_mapSet_self _ _ _
      · have hiff := hc (e.2, e.1) (hbwd e hein) (jsTrim l, jsTrim p) hmem
        have hne2 : ¬ e.2 = jsTrim l := fun hq => hne (hiff.mp hq)
        rw [lookupKV_mapSet_ne _ _ _ _ hne2]
        exact hinv.2 e hein
    · intro e he
      rcases mem_mapSet he with rfl | ⟨hein, _⟩
      · exact hmem
      · exact hfwd e hein
    · intro e he
      rcases mem_mapSet he with rfl | ⟨hein, _⟩
      · exact hmem
      · exact hbwd e hein

/-- Fold form of the previous lemma. -/
theorem applyPairs_inverses (tp : List (String × String))
    (hc : ∀ p ∈ tp, ∀ q ∈ tp, (p.1 = q.1 ↔ p.2 = q.2)) :
    ∀ (l : List (String × String)) (d : AliasData),
    (∀ q ∈ l, (jsTrim q.1, jsTrim q.2) ∈ tp) →
    Inverses d →
    (∀ e ∈ d.lid_to_pn, e ∈ tp) →
    (∀ e ∈ d.pn_to_lid, (e.2, e.1) ∈ tp) →
    Inverses (applyPairs l d) := by
  intro l
  induction l with
  | nil =>
    intro d _ hinv _ _
    exact hinv
  | cons q rest ih =>
    intro d hl hinv hfwd hbwd
    have hstep := rememberPair_inverses_step tp d hc hinv hfwd hbwd q.1 q.2
      (hl q (by simp))
    have hrest : ∀ r ∈ rest, (jsTrim r.1, jsTrim r.2) ∈ tp := by
      intro r hr
      exact hl r (by simp [hr])
    show Inverses (applyPairs rest (rememberPair d q.1 q.2).1)
    exact ih _ hrest hstep.1 hstep.2.1 hstep.2.2

/-- C7 as stated is false: `rememberPair` does not remove the stale
reverse entry when a lid is re-paired with a different pn.  After
`rememberPair("a@lid","1@…")` and `rememberPair("a@lid","2@…")` — both
returning `changed=true` — `pn_to_lid` still maps `1@…` to `a@lid`
while `lid_to_pn` maps `a@lid` to `2@…`, so the maps are not consistent
inverses. -/
theorem claim_C7_counterexample :
    (rememberPair AliasData.empty "a@lid" "1@s.whatsapp.net").2 = true ∧
    (rememberPair (rememberPair AliasData.empty "a@lid" "1@s.whatsapp.net").1
      "a@lid" "2@s.whatsapp.net").2 = true ∧
    ¬ Inverses (rememberPair (rememberPair AliasData.empty "a@lid" "1@s.whatsapp.net").1
      "a@lid" "2@s.whatsapp.net").1 := by
  decide

/-- C7 amended: after every sequence of `rememberPair` calls in which no
lid is paired (after trimming) with two different pns and no pn with
two different lids, the `lid_to_pn` and `pn_to_lid` maps are consistent
inverses — in particular after every call returning `changed=true`,
since every prefix of such a sequence again satisfies the hypothesis.
Without that restriction the invariant fails (see the
counterexample). -/
theorem claim_C7_theorem (pairs : List (String × String))
    (hc : ∀ p ∈ pairs.map (fun q => (jsTrim q.1, jsTrim q.2)),
          ∀ q ∈ pairs.map (fun q => (jsTrim q.1, jsTrim q.2)),
          (p.1 = q.1 ↔ p.2 = q.2)) :
    Inverses (applyPairs pairs AliasData.empty) := by
  refine applyPairs_inverses (pairs.map (fun q => (jsTrim q.1, jsTrim q.2))) hc
    pairs AliasData.empty ?_ ?_ ?_ ?_
  · intro q hq
    exact List.mem_map_of_mem _ hq
  · exact ⟨fun e he => by simp [AliasData.empty] at he, fun e he => by simp [AliasData.empty] at he⟩
  · intro e he
    simp [AliasData.empty] at he
  · intro e he
    simp [AliasData.empty] at he

/-- Concrete instance of the amended C7 theorem. -/
theorem claim_C7_witness :
    Inverses (applyPairs
      [("a@lid", "1@s.whatsapp.net"), ("b@lid", "2@s.whatsapp.net"),
       ("a@lid", "1@s.whatsapp.net")] AliasData.empty) :=
  claim_C7_theorem _ (by decide)

/-! ### Claim C1 -/

/-- C1 as stated is false on the error branch: when the scheduled
renewal's HTTP call raises (e.g. a timeout), the interval callback only
logs the rejection — the ownership entry (and so its renewal timer)
remains in place and `onLockLost` is not invoked. -/
theorem claim_C1_counterexample :
    (renewTick [("s1", ⟨"worker:1", some "t1"⟩)] "s1"
        (.error ⟨none, "timeout"⟩)).1 = [("s1", ⟨"worker:1", some "t1"⟩)] ∧
    hasOwnership (renewTick [("s1", ⟨"worker:1", some "t1"⟩)] "s1"
        (.error ⟨none, "timeout"⟩)).1 "s1" = true ∧
    Ev.onLockLost "s1" ∉ (renewTick [("s1", ⟨"worker:1", some "t1"⟩)] "s1"
        (.error ⟨none, "timeout"⟩)).2 := by
  decide

/-- C1 amended: only a renewal that *returns* `acquired=false` clears
the local ownership entry (cancelling its renewal timer, which lives
and dies with the entry) and invokes `onLockLost`; a renewal whose HTTP
call raises is merely logged by the interval callback, ownership and
timer are retained, and renewal is retried at the next interval. -/
theorem claim_C1_theorem :
    (∀ (own : Ownership) (iid : String) (st : LockState) (payload : RawLockPayload),
      lookupKV own iid = some st →
      (parseLockPayload payload).acquired = false →
      renewTick own iid (.ok payload) = (mapDelete own iid, [.onLockLost iid]) ∧
      hasOwnership (renewTick own iid (.ok payload)).1 iid = false) ∧
    (∀ (own : Ownership) (iid : String) (st : LockState) (e : ErrObj),
      lookupKV own iid = some st →
      renewTick own iid (.error e) = (own, [.logRenewError iid])) := by
  constructor
  · intro own iid st payload hst hacq
    have hrt : renewTick own iid (.ok payload) = (mapDelete own iid, [.onLockLost iid]) := by
      unfold renewTick renew clearOwnership
      rw [hst]
      simp [hacq, hst]
    refine ⟨hrt, ?_⟩
    rw [hrt]
    unfold hasOwnership
    rw [lookupKV_mapDelete_self]
    rfl
  · intro own iid st e hst
    unfold renewTick renew
    rw [hst]
    rfl

/-- Concrete instance of the amended C1 theorem. -/
theorem claim_C1_witness :
    renewTick [("s1", ⟨"worker:1", some "t1"⟩)] "s1"
        (.ok ⟨some false, none, none, none, none, none⟩) =
      (mapDelete [("s1", ⟨"worker:1", some "t1"⟩)] "s1", [.onLockLost "s1"]) ∧
    renewTick [("s1", ⟨"worker:1", some "t1"⟩)] "s1" (.error ⟨none, "timeout"⟩) =
      ([("s1", ⟨"worker:1", some "t1"⟩)], [.logRenewError "s1"]) :=
  ⟨(claim_C1_theorem.1 [("s1", ⟨"worker:1", some "t1"⟩)] "s1" ⟨"worker:1", some "t1"⟩
      ⟨some false, none, none, none, none, none⟩ (by decide) (by decide)).1,
   claim_C1_theorem.2 [("s1", ⟨"worker:1", some "t1"⟩)] "s1" ⟨"worker:1", some "t1"⟩
      ⟨none, "timeout"⟩ (by decide)⟩

/-! ### Claim C10 -/

/-- C10: when `ensureRunning` holds the lock (freshly acquired or
pre-existing), the runtime is not busy, and `connect()` throws, the
lock is released with reason `connect-failure` (remote release posted,
local entry and timer dropped) and the error propagates; the resulting
ownership no longer contains the instance. -/
theorem claim_C10_theorem :
    (∀ (own : Ownership) (iid : String) (payload : RawLockPayload) (e : ErrObj),
      hasOwnership own iid = false →
      (parseLockPayload payload).acquired = true →
      ensureRunning own iid (.ok payload) false (.error e) =
        (mapDelete (setOwnership own iid
            { instanceOwner := ((parseLockPayload payload).owner).getD PROCESS_OWNER_ID,
              lockToken := (parseLockPayload payload).lockToken }) iid,
         .error e,
         [.lockRelease iid "connect-failure"]) ∧
      hasOwnership (ensureRunning own iid (.ok payload) false (.error e)).1 iid = false) ∧
    (∀ (own : Ownership) (iid : String) (st : LockState)
        (resp : Except ErrObj RawLockPayload) (e : ErrObj),
      lookupKV own iid = some st →
      ensureRunning own iid resp false (.error e) =
        (mapDelete own iid, .error e, [.lockRelease iid "connect-failure"]) ∧
      hasOwnership (ensureRunning own iid resp false (.error e)).1 iid = false) := by
  constructor
  · intro own iid payload e hno hacq
    have hmain : ensureRunning own iid (.ok payload) false (.error e) =
        (mapDelete (setOwnership own iid
            { instanceOwner := ((parseLockPayload payload).owner).getD PROCESS_OWNER_ID,
              lockToken := (parseLockPayload payload).lockToken }) iid,
         .error e, [.lockRelease iid "connect-failure"]) := by
      unfold ensureRunning acquire release clearOwnership setOwnership
      simp [hno, hacq, lookupKV_mapSet_self]
    refine ⟨hmain, ?_⟩
    rw [hmain]
    unfold hasOwnership
    rw [lookupKV_mapDelete_self]
    rfl
  · intro own iid st resp e hst
    have hown : hasOwnership own iid = true := by
      unfold hasOwnership
      rw [hst]
      rfl
    have hmain : ensureRunning own iid resp false (.error e) =
        (mapDelete own iid, .error e, [.lockRelease iid "connect-failure"]) := by
      unfold ensureRunning release clearOwnership
      simp [hown, hst]
    refine ⟨hmain, ?_⟩
    rw [hmain]
    unfold hasOwnership
    rw [lookupKV_mapDelete_self]
    rfl

/-- Concrete instance of the C10 theorem: fresh acquisition, then a
failing connect. -/
theorem claim_C10_witness :
    ensureRunning [] "s1" (.ok ⟨some true, none, some "owner-a", none, some "tok", none⟩)
        false (.error ⟨none, "boom"⟩) =
      (mapDelete (setOwnership [] "s1" ⟨"owner-a", some "tok"⟩) "s1",
       .error ⟨none, "boom"⟩,
       [.lockRelease "s1" "connect-failure"]) ∧
    hasOwnership (ensureRunning [] "s1"
        (.ok ⟨some true, none, some "owner-a", none, some "tok", none⟩)
        false (.error ⟨none, "boom"⟩)).1 "s1" = false :=
  claim_C10_theorem.1 [] "s1" ⟨some true, none, some "owner-a", none, some "tok", none⟩
    ⟨none, "boom"⟩ rfl rfl

/-! ### Claim C2 -/

/-- C2: recording a signal-session error at time `now` when the
windowed count (after adding `now` and purging entries older than
`BAD_MAC_WINDOW_MS`) reaches `BAD_MAC_THRESHOLD`, the breaker is not
already running, and `now` is at least `badMacBreakerUntil`, trips the
breaker: `badMacBreakerUntil` becomes `now + BAD_MAC_COOLDOWN_MS`
(5 min), a DISCONNECTED status is posted, the auth directory is
removed, and the manager's `ensureRunning` is re-invoked (after
`resetRuntime`). -/
theorem claim_C2_theorem (iid : String) (st : BreakerState) (now : Nat) (msg : String)
    (hsig : isSignalSessionError msg = true)
    (hcount : BAD_MAC_THRESHOLD ≤
      ((st.badMacTimestamps ++ [now]).filter
        (fun t => now - t ≤ BAD_MAC_WINDOW_MS)).length)
    (hrun : st.badMacBreakerRunning = false)
    (hcool : st.badMacBreakerUntil ≤ now) :
    registerSignalSessionError iid st now msg =
      ({ badMacTimestamps := [],
         badMacBreakerUntil := now + BAD_MAC_COOLDOWN_MS,
         badMacBreakerRunning := false,
         intentionalStop := true },
       [.statusPost iid "DISCONNECTED", .authWipe iid,
        .resetRuntimeCall iid, .ensureRunningCall iid]) := by
  have h1 : ¬ ((st.badMacTimestamps ++ [now]).filter
      (fun t => now - t ≤ BAD_MAC_WINDOW_MS)).length < BAD_MAC_THRESHOLD := by
    omega
  have h2 : ¬ (st.badMacBreakerRunning = true ∨ now < st.badMacBreakerUntil) := by
    rw [hrun]
    simp only [Bool.false_eq_true, false_or]
    omega
  unfold registerSignalSessionError
  simp only [hsig, eq_self_iff_true, not_true, if_false]
  rw [if_neg h1, if_neg h2]

/-- Concrete instance of the C2 theorem: the twentieth "Bad MAC" inside
one window trips the breaker. -/
theorem claim_C2_witness :
    registerSignalSessionError "s1"
        ⟨List.replicate 19 5, 0, false, false⟩ 10 "Bad MAC" =
      ({ badMacTimestamps := [],
         badMacBreakerUntil := 10 + BAD_MAC_COOLDOWN_MS,
         badMacBreakerRunning := false,
         intentionalStop := true },
       [.statusPost "s1" "DISCONNECTED", .authWipe "s1",
        .resetRuntimeCall "s1", .ensureRunningCall "s1"]) :=
  claim_C2_theorem "s1" ⟨List.replicate 19 5, 0, false, false⟩ 10 "Bad MAC"
    (by decide) (by decide) rfl (by decide)

/-! ### Claim C3 -/

/-- C3: the discovery targets are the first `N` elements of the
eligible list sorted by priority descending with ties broken by the
original index (`Sorted prioBefore` + permutation pin down
`stablePrioritize`); `N = max(0, max_active_instances)` with the
fallback folded into `getMaxActiveInstances`; `N = 0` yields the whole
ordered list; and the spec's concrete scenario
(`max_active_instances = 2`, eligible `[{A,5},{B,10},{C,10}]`) yields
targets `[B, C]`. -/
theorem claim_C3_theorem :
    (∀ instances : List RawInstance, (stablePrioritize instances).Sorted prioBefore) ∧
    (∀ instances : List RawInstance,
      List.Perm (stablePrioritize instances) (withIndex instances)) ∧
    (∀ (settings : Option Int) (instances : List RawInstance),
      getMaxActiveInstances settings = 0 →
      discoveryTargets settings instances =
        (stablePrioritize instances).map (fun i => i.id)) ∧
    (∀ (settings : Option Int) (instances : List RawInstance),
      0 < getMaxActiveInstances settings →
      discoveryTargets settings instances =
        ((stablePrioritize instances).take
          (getMaxActiveInstances settings).toNat).map (fun i => i.id)) ∧
    discoveryTargets (some 2) [⟨"A", 5⟩, ⟨"B", 10⟩, ⟨"C", 10⟩] = ["B", "C"] := by
  refine ⟨?_, ?_, ?_, ?_, ?_⟩
  · intro instances
    exact List.sorted_insertionSort prioBefore (withIndex instances)
  · intro instances
    exact List.perm_insertionSort prioBefore (withIndex instances)
  · intro settings instances h
    unfold discoveryTargets
    rw [h]
    simp
  · intro settings instances h
    unfold discoveryTargets
    simp only []
    rw [if_pos h]
  · decide

/-- Concrete instances of the C3 theorem's conditional parts. -/
theorem claim_C3_witness :
    discoveryTargets none [⟨"A", 5⟩, ⟨"B", 10⟩] =
      (stablePrioritize [⟨"A", 5⟩, ⟨"B", 10⟩]).map (fun i => i.id) ∧
    discoveryTargets (some 1) [⟨"A", 5⟩, ⟨"B", 10⟩] =
      ((stablePrioritize [⟨"A", 5⟩, ⟨"B", 10⟩]).take 1).map (fun i => i.id) :=
  ⟨claim_C3_theorem.2.2.1 none [⟨"A", 5⟩, ⟨"B", 10⟩] (by decide),
   claim_C3_theorem.2.2.2.1 (some 1) [⟨"A", 5⟩, ⟨"B", 10⟩] (by decide)⟩

/-! ### Claim C4 -/

theorem countSendAttempts_cons_sendAttempt (j : String) (evs : List Ev) :
    countSendAttempts (.sendAttempt j :: evs) = countSendAttempts evs + 1 := rfl

theorem countSendAttempts_cons_refresh (a b c : String) (evs : List Ev) :
    countSendAttempts (.refreshSession a b c :: evs) = countSendAttempts evs := rfl

theorem countSendAttempts_cons_sleep (ms : Nat) (evs : List Ev) :
    countSendAttempts (.sleep ms :: evs) = countSendAttempts evs := rfl

theorem countSendAttempts_go (aliasData : AliasData) (iid toNorm : String)
    (oc : Nat → Except String String) :
    ∀ fuel attempt,
      countSendAttempts (sendRecoverGo aliasData iid toNorm oc fuel attempt).2 ≤ fuel := by
  intro fuel
  induction fuel with
  | zero =>
    intro attempt
    simp [sendRecoverGo, countSendAttempts]
  | succ n ih =>
    intro attempt
    cases hoc : oc attempt with
    | ok r =>
      simp only [sendRecoverGo, hoc]
      have h1 : countSendAttempts [Ev.sendAttempt (resolveCanonical aliasData toNorm none)] = 1 := rfl
      omega
    | error e =>
      simp only [sendRecoverGo, hoc]
      have h1 : countSendAttempts [Ev.sendAttempt (resolveCanonical aliasData toNorm none)] = 1 := rfl
      by_cases hsig : ¬ isSignalSessionError e = true
      · rw [if_pos hsig]
        dsimp only
        omega
      · rw [if_neg hsig]
        by_cases hretry : strIncludes (strLower e) "no matching sessions found" = true ∧
            attempt < DECRYPT_RETRY_MAX_ATTEMPTS
        · rw [if_pos hretry]
          have h2 := ih (attempt + 1)
          dsimp only
          simp only [countSendAttempts_cons_sendAttempt, countSendAttempts_cons_refresh,
            countSendAttempts_cons_sleep]
          omega
        · rw [if_neg hretry]
          dsimp only
          omega


/-- C4: the send loop performs at most
`DECRYPT_RETRY_MAX_ATTEMPTS + 1 = 4` send attempts, canonicalizing the
JID before each one; an attempt failing with a "no matching sessions
found" error while attempts remain triggers one `refreshSession` post
(trigger `no_matching_sessions`) and a sleep of the next backoff in
`[1s,2s,5s]` before retrying; a non-signal error or a signal error
without that text (e.g. "bad mac") exits immediately; and the spec
scenario (two such failures then success) yields exactly two refreshes,
sleeps of 1 s and 2 s, and one mark-sent. -/
theorem claim_C4_theorem :
    (∀ (aliasData : AliasData) (iid toNorm : String) (oc : Nat → Except String String),
      countSendAttempts (sendWithSessionRecovery aliasData iid toNorm oc).2 ≤
        DECRYPT_RETRY_MAX_ATTEMPTS + 1) ∧
    (∀ (aliasData : AliasData) (iid toNorm : String) (oc : Nat → Except String String)
        (e : String), oc 0 = .error e →
      isSignalSessionError e = false →
      sendWithSessionRecovery aliasData iid toNorm oc =
        (.error e, [.sendAttempt (resolveCanonical aliasData toNorm none)])) ∧
    (∀ (aliasData : AliasData) (iid toNorm : String) (oc : Nat → Except String String)
        (e : String), oc 0 = .error e →
      isSignalSessionError e = true →
      strIncludes (strLower e) "no matching sessions found" = false →
      sendWithSessionRecovery aliasData iid toNorm oc =
        (.error e, [.sendAttempt (resolveCanonical aliasData toNorm none)])) ∧
    (∀ (aliasData : AliasData) (iid toNorm : String) (oc : Nat → Except String String)
        (fuel attempt : Nat) (e : String),
      oc attempt = .error e →
      isSignalSessionError e = true →
      strIncludes (strLower e) "no matching sessions found" = true →
      attempt < DECRYPT_RETRY_MAX_ATTEMPTS →
      sendRecoverGo aliasData iid toNorm oc (fuel + 1) attempt =
        ((sendRecoverGo aliasData iid toNorm oc fuel (attempt + 1)).1,
         .sendAttempt (resolveCanonical aliasData toNorm none) ::
         .refreshSession iid
           (resolveCanonical aliasData (resolveCanonical aliasData toNorm none) none)
           "no_matching_sessions" ::
         .sleep (SESSION_REFRESH_BACKOFF_MS.getD
           (min attempt (SESSION_REFRESH_BACKOFF_MS.length - 1)) 0) ::
         (sendRecoverGo aliasData iid toNorm oc fuel (attempt + 1)).2)) ∧
    (processMessage AliasData.empty "i1" ⟨"m1", "5511999999999", "hi", ""⟩ none
        (fun n => if n < 2 then .error "no matching sessions found" else .ok "w1") =
      [.sendAttempt "5511999999999@s.whatsapp.net",
       .refreshSession "i1" "5511999999999@s.whatsapp.net" "no_matching_sessions",
       .sleep 1000,
       .sendAttempt "5511999999999@s.whatsapp.net",
       .refreshSession "i1" "5511999999999@s.whatsapp.net" "no_matching_sessions",
       .sleep 2000,
       .sendAttempt "5511999999999@s.whatsapp.net",
       .markSent "m1"]) := by
  refine ⟨?_, ?_, ?_, ?_, ?_⟩
  · intro aliasData iid toNorm oc
    exact countSendAttempts_go aliasData iid toNorm oc (DECRYPT_RETRY_MAX_ATTEMPTS + 1) 0
  · intro aliasData iid toNorm oc e hoc hsig
    have hsig2 : ¬ isSignalSessionError e = true := by simp [hsig]
    show sendRecoverGo aliasData iid toNorm oc (DECRYPT_RETRY_MAX_ATTEMPTS + 1) 0 = _
    simp only [sendRecoverGo, hoc]
    rw [if_pos hsig2]
  · intro aliasData iid toNorm oc e hoc hsig hnm
    have hsig2 : ¬ ¬ isSignalSessionError e = true := by simp [hsig]
    have hnm2 : ¬ (strIncludes (strLower e) "no matching sessions found" = true ∧
        0 < DECRYPT_RETRY_MAX_ATTEMPTS) := by simp [hnm]
    show sendRecoverGo aliasData iid toNorm oc (DECRYPT_RETRY_MAX_ATTEMPTS + 1) 0 = _
    simp only [sendRecoverGo, hoc]
    rw [if_neg hsig2, if_neg hnm2]
  · intro aliasData iid toNorm oc fuel attempt e hoc hsig hnm hlt
    have hsig2 : ¬ ¬ isSignalSessionError e = true := by simp [hsig]
    simp only [sendRecoverGo, hoc]
    rw [if_neg hsig2, if_pos ⟨hnm, hlt⟩]
  · decide


/-- Concrete instances of the C4 theorem's parts. -/
theorem claim_C4_witness :
    countSendAttempts (sendWithSessionRecovery AliasData.empty "i1" "dest"
        (fun _ => .ok "w")).2 ≤ DECRYPT_RETRY_MAX_ATTEMPTS + 1 ∧
    sendWithSessionRecovery AliasData.empty "i1" "dest" (fun _ => .error "boom") =
      (.error "boom", [.sendAttempt (resolveCanonical AliasData.empty "dest" none)]) ∧
    sendWithSessionRecovery AliasData.empty "i1" "dest" (fun _ => .error "Bad MAC") =
      (.error "Bad MAC", [.sendAttempt (resolveCanonical AliasData.empty "dest" none)]) ∧
    sendRecoverGo AliasData.empty "i1" "dest"
        (fun _ => .error "no matching sessions found") 1 0 =
      ((sendRecoverGo AliasData.empty "i1" "dest"
          (fun _ => .error "no matching sessions found") 0 1).1,
       .sendAttempt (resolveCanonical AliasData.empty "dest" none) ::
       .refreshSession "i1"
         (resolveCanonical AliasData.empty
           (resolveCanonical AliasData.empty "dest" none) none)
         "no_matching_sessions" ::
       .sleep (SESSION_REFRESH_BACKOFF_MS.getD
         (min 0 (SESSION_REFRESH_BACKOFF_MS.length - 1)) 0) ::
       (sendRecoverGo AliasData.empty "i1" "dest"
          (fun _ => .error "no matching sessions found") 0 1).2) :=
  ⟨claim_C4_theorem.1 _ _ _ _,
   claim_C4_theorem.2.1 _ _ _ _ _ rfl (by decide),
   claim_C4_theorem.2.2.1 _ _ _ _ _ rfl (by decide) (by decide),
   claim_C4_theorem.2.2.2.1 _ _ _ _ 0 0 _ rfl (by decide) (by decide) (by decide)⟩

/-! ### Claim C5 -/

/-- C5 as stated is false: `resolveDestination` never checks that the
returned `jid_pn` ends with `@s.whatsapp.net` — any non-empty trimmed
value is used as the destination.  With `to = "1203630@lid"` and a
primary-jid response of `{jid_pn:"999@lid"}`, the message is sent to
`999@lid` (send attempted, mark-sent posted, no mark-failed) even
though `999@lid` does not end with `@s.whatsapp.net`. -/
theorem claim_C5_counterexample :
    resolveDestination ⟨"m2", "1203630@lid", "hi", ""⟩ (some ⟨some "999@lid", none⟩) =
      ⟨"1203630@lid", some "999@lid", none⟩ ∧
    jsEndsWith "999@lid" "@s.whatsapp.net" = false ∧
    processMessage AliasData.empty "i1" ⟨"m2", "1203630@lid", "hi", ""⟩
        (some ⟨some "999@lid", none⟩) (fun _ => .ok "w1") =
      [.sendAttempt "999@lid", .markSent "m2"] := by
  decide

/-- C5 amended: for a queued message whose trimmed `to` ends with
`@lid`, the primary-jid response value (`jid_pn`, falling back to
`jid`, empty-string falsy, then trimmed) is used as the destination
whenever it is non-empty — with no check that it ends in
`@s.whatsapp.net` — and only an empty value yields the
`lid_without_mapping` failure, in which case the message is marked
failed and never sent. -/
theorem claim_C5_theorem (msg : QueuedMsg) (resp : Option PrimaryJidResp)
    (hlid : jsEndsWith (jsTrim msg.«to») "@lid" = true) :
    (jsTrim ((jsOrStr (resp.bind (fun r => r.jid_pn))
        (resp.bind (fun r => r.jid))).getD "") = "" →
      resolveDestination msg resp =
        ⟨jsTrim msg.«to», none, some "lid_without_mapping"⟩) ∧
    (∀ jp : String,
      jsTrim ((jsOrStr (resp.bind (fun r => r.jid_pn))
        (resp.bind (fun r => r.jid))).getD "") = jp →
      ¬ jp = "" →
      resolveDestination msg resp = ⟨jsTrim msg.«to», some jp, none⟩) ∧
    (∀ (aliasData : AliasData) (iid : String) (oc : Nat → Except String String),
      ¬ (msg.id = "" ∨ msg.«to» = "" ∨ (msg.body = "" ∧ msg.media_url = "")) →
      jsTrim ((jsOrStr (resp.bind (fun r => r.jid_pn))
        (resp.bind (fun r => r.jid))).getD "") = "" →
      processMessage aliasData iid msg resp oc =
        [.markFailed msg.id "lid_without_mapping"]) := by
  have hempty : ∀ _h0 : jsTrim ((jsOrStr (resp.bind (fun r => r.jid_pn))
      (resp.bind (fun r => r.jid))).getD "") = "",
      resolveDestination msg resp =
        ⟨jsTrim msg.«to», none, some "lid_without_mapping"⟩ := by
    intro h0
    unfold resolveDestination
    simp only []
    rw [if_pos hlid, if_pos h0]
  refine ⟨hempty, ?_, ?_⟩
  · intro jp hjp hne
    unfold resolveDestination
    simp only []
    rw [if_pos hlid, if_neg (hjp ▸ hne), hjp]
  · intro aliasData iid oc hval h0
    unfold processMessage
    rw [if_neg hval, hempty h0]

/-- Concrete instances of the amended C5 theorem: an empty primary-jid
response yields `lid_without_mapping` and a mark-failed; a non-empty
one is used verbatim. -/
theorem claim_C5_witness :
    resolveDestination ⟨"m2", "1203630@lid", "hi", ""⟩ (some ⟨some "", none⟩) =
      ⟨"1203630@lid", none, some "lid_without_mapping"⟩ ∧
    processMessage AliasData.empty "i1" ⟨"m2", "1203630@lid", "hi", ""⟩
        (some ⟨some "", none⟩) (fun _ => .ok "w1") =
      [.markFailed "m2" "lid_without_mapping"] ∧
    resolveDestination ⟨"m2", "1203630@lid", "hi", ""⟩
        (some ⟨some "5511888@s.whatsapp.net", none⟩) =
      ⟨"1203630@lid", some "5511888@s.whatsapp.net", none⟩ :=
  ⟨( claim_C5_theorem ⟨"m2", "1203630@lid", "hi", ""⟩ (some ⟨some "", none⟩)
      (by decide)).1 (by decide),
   ( claim_C5_theorem ⟨"m2", "1203630@lid", "hi", ""⟩ (some ⟨some "", none⟩)
      (by decide)).2.2 AliasData.empty "i1" (fun _ => .ok "w1") (by decide) (by decide),
   ( claim_C5_theorem ⟨"m2", "1203630@lid", "hi", ""⟩
      (some ⟨some "5511888@s.whatsapp.net", none⟩) (by decide)).2.1
      "5511888@s.whatsapp.net" (by decide) (by decide)⟩

/-! ### Claim C6 -/

theorem stepWorld_connected (oc : Nat → Except String Unit) (w : World) (s : Step)
    (hs : s ≠ Step.closeEvt) (hw : w.connected = true) :
    (stepWorld oc w s).1.connected = true := by
  cases s with
  | closeEvt => exact absurd rfl hs
  | wake =>
    dsimp [stepWorld]
    repeat' split
    all_goals simpa using hw
  | retryRun =>
    dsimp [stepWorld]
    repeat' split
    all_goals simpa using hw
  | reconnect ns =>
    dsimp [stepWorld]
    repeat' split
    all_goals first
      | (rename_i hg; exact absurd hw hg.2.1)
      | simpa using hw

theorem stepWorld_sendInvoked (oc : Nat → Except String Unit) (w : World) (s : Step)
    (c : Bool) (so : Option Nat)
    (h : Ev.sendInvoked c so ∈ (stepWorld oc w s).2) :
    c = w.connected ∧ so ≠ none := by
  cases s with
  | closeEvt =>
    dsimp [stepWorld] at h
    split at h <;> simp at h
  | wake =>
    dsimp [stepWorld] at h
    split at h <;> simp at h
  | reconnect ns =>
    dsimp [stepWorld] at h
    split at h <;> simp at h
  | retryRun =>
    dsimp [stepWorld] at h
    repeat' split at h
    all_goals simp at h
    all_goals exact ⟨h.1, by simp [h.2]⟩


theorem runWorld_sendInvoked_sock (oc : Nat → Except String Unit) :
    ∀ (steps : List Step) (w : World) (c : Bool) (so : Option Nat),
      Ev.sendInvoked c so ∈ (runWorld oc w steps).2 → so ≠ none := by
  intro steps
  induction steps with
  | nil =>
    intro w c so h
    simp [runWorld] at h
  | cons s rest ih =>
    intro w c so h
    simp only [runWorld] at h
    rcases List.mem_append.mp (by simpa using h) with h1 | h1
    · exact (stepWorld_sendInvoked oc w s c so h1).2
    · exact ih _ _ _ h1

theorem runWorld_sendInvoked_connected (oc : Nat → Except String Unit) :
    ∀ (steps : List Step) (w : World),
      (∀ s ∈ steps, s ≠ Step.closeEvt) → w.connected = true →
      ∀ (c : Bool) (so : Option Nat),
        Ev.sendInvoked c so ∈ (runWorld oc w steps).2 → c = true := by
  intro steps
  induction steps with
  | nil =>
    intro w _ _ c so h
    simp [runWorld] at h
  | cons s rest ih =>
    intro w hnc hw c so h
    simp only [runWorld] at h
    rcases List.mem_append.mp (by simpa using h) with h1 | h1
    · rw [(stepWorld_sendInvoked oc w s c so h1).1]
      exact hw
    · exact ih (stepWorld oc w s).1 (fun x hx => hnc x (by simp [hx]))
        (stepWorld_connected oc w s (hnc s (by simp)) hw) c so h1


/-- C6 as stated is false: the session-recovery loop does not re-check
the connection state across its sleep points.  Schedule: the first
attempt fails with "no matching sessions found" (send invoked while
Open), the connection closes during the sleep, the reconnect path
installs a new socket (state Connecting, `connected = false`), and the
woken retry then invokes `sock.sendMessage` on the new socket while the
session is not Open. -/
theorem claim_C6_counterexample :
    (runWorld (fun _ => .error "no matching sessions found") openWorld
        [.retryRun, .closeEvt, .reconnect 2, .wake, .retryRun]).2 =
      [.sendInvoked true (some 1), .sendInvoked false (some 2)] ∧
    Ev.sendInvoked false (some 2) ∈
      (runWorld (fun _ => .error "no matching sessions found") openWorld
        [.retryRun, .closeEvt, .reconnect 2, .wake, .retryRun]).2 := by
  decide

/-- C6 amended: the tick-entry and per-message checks do keep sends in
the Open state as long as no close event interleaves with the tick —
under any schedule without a close, every send is invoked with
`connected = true`; and a send is never invoked without a socket object
present (a nulled `runtime.sock` raises a TypeError before any send).
But across the recovery loop's sleep points the state is not
re-checked, so after a close and reconnect during a sleep a send can be
invoked while the session is not Open (see the counterexample). -/
theorem claim_C6_theorem :
    (∀ (oc : Nat → Except String Unit) (steps : List Step),
      (∀ s ∈ steps, s ≠ Step.closeEvt) →
      ∀ (c : Bool) (so : Option Nat),
        Ev.sendInvoked c so ∈ (runWorld oc openWorld steps).2 → c = true) ∧
    (∀ (oc : Nat → Except String Unit) (steps : List Step) (w : World)
        (c : Bool) (so : Option Nat),
      Ev.sendInvoked c so ∈ (runWorld oc w steps).2 → so ≠ none) :=
  ⟨fun oc steps hnc c so h =>
    runWorld_sendInvoked_connected oc steps openWorld hnc rfl c so h,
   fun oc steps w c so h => runWorld_sendInvoked_sock oc steps w c so h⟩

/-- Concrete instance of the amended C6 theorem, on a schedule with no
close event. -/
theorem claim_C6_witness :
    Ev.sendInvoked true (some 1) ∈
      (runWorld (fun _ => .ok ()) openWorld [.retryRun]).2 ∧
    (true : Bool) = true ∧ some 1 ≠ (none : Option Nat) :=
  ⟨by decide,
   claim_C6_theorem.1 (fun _ => .ok ()) [.retryRun] (by decide) true (some 1) (by decide),
   claim_C6_theorem.2 (fun _ => .ok ()) [.retryRun] openWorld true (some 1) (by decide)⟩

/-! ### Claim C8 -/

theorem resolveCacheKey_inj (iid j1 j2 : String)
    (h : resolveCacheKey iid j1 = resolveCacheKey iid j2) : j1 = j2 := by
  unfold resolveCacheKey at h
  have hd : (iid ++ ":").data ++ j1.data = (iid ++ ":").data ++ j2.data :=
    congrArg String.data h
  have hl := List.append_cancel_left hd
  cases j1
  cases j2
  exact congrArg String.mk hl

theorem cacheContactResolve_of_unexpired (m : Cache) (now : Nat) (iid jid : String)
    (data : CacheEntry) (hm : ∀ e ∈ m, ¬ e.2.expiresAt ≤ now)
    (hd : ¬ data.expiresAt ≤ now) :
    cacheContactResolve m now iid jid data = mapSet m (resolveCacheKey iid jid) data := by
  unfold cacheContactResolve
  simp only []
  have hall : ∀ e ∈ mapSet m (resolveCacheKey iid jid) data, ¬ e.2.expiresAt ≤ now := by
    intro e he
    rcases mem_mapSet he with rfl | ⟨hin, _⟩
    · exact hd
    · exact hm e hin
  by_cases h5 : 500 < (mapSet m (resolveCacheKey iid jid) data).length
  · rw [if_pos h5]
    apply List.filter_eq_self.mpr
    intro e he
    simpa using hall e he
  · rw [if_neg h5]

theorem cacheInsertAll_length (now : Nat) (iid : String) (data : CacheEntry)
    (hd : ¬ data.expiresAt ≤ now) :
    ∀ (jids : List String) (m : Cache),
      jids.Nodup →
      (∀ j ∈ jids, lookupKV m (resolveCacheKey iid j) = none) →
      (∀ e ∈ m, ¬ e.2.expiresAt ≤ now) →
      (cacheInsertAll m now iid data jids).length = m.length + jids.length ∧
      (∀ e ∈ cacheInsertAll m now iid data jids, ¬ e.2.expiresAt ≤ now) := by
  intro jids
  induction jids with
  | nil =>
    intro m _ _ hm
    exact ⟨by simp [cacheInsertAll], hm⟩
  | cons j rest ih =>
    intro m hnd hfresh hm
    have hkey : lookupKV m (resolveCacheKey iid j) = none := hfresh j (by simp)
    have hstep : cacheContactResolve m now iid j data =
        mapSet m (resolveCacheKey iid j) data :=
      cacheContactResolve_of_unexpired m now iid j data hm hd
    have hm1 : ∀ e ∈ mapSet m (resolveCacheKey iid j) data, ¬ e.2.expiresAt ≤ now := by
      intro e he
      rcases mem_mapSet he with rfl | ⟨hin, _⟩
      · exact hd
      · exact hm e hin
    have hfresh1 : ∀ j2 ∈ rest,
        lookupKV (mapSet m (resolveCacheKey iid j) data) (resolveCacheKey iid j2) = none := by
      intro j2 hj2
      have hne : ¬ resolveCacheKey iid j2 = resolveCacheKey iid j := by
        intro hceq
        have hj := resolveCacheKey_inj iid j2 j hceq
        rw [hj] at hj2
        exact (List.nodup_cons.mp hnd).1 hj2
      rw [lookupKV_mapSet_ne _ _ _ _ hne]
      exact hfresh j2 (by simp [hj2])
    have hrec := ih (mapSet m (resolveCacheKey iid j) data) (List.nodup_cons.mp hnd).2
      hfresh1 hm1
    refine ⟨?_, ?_⟩
    · show (cacheInsertAll (cacheContactResolve m now iid j data) now iid data rest).length = _
      rw [hstep, hrec.1, length_mapSet_fresh m _ data hkey]
      simp only [List.length_cons]
      omega
    · show ∀ e ∈ cacheInsertAll (cacheContactResolve m now iid j data) now iid data rest, _
      rw [hstep]
      exact hrec.2

/-- C8 as stated is false: the purge at >500 entries deletes only
entries already expired, so 501 unexpired entries (distinct jids, all
with `expiresAt = 1`, inserted at `now = 0`) leave the cache holding
501 entries — the size bound is not restored. -/
theorem claim_C8_counterexample :
    500 < (cacheInsertAll [] 0 "inst" ⟨none, 1⟩ ((List.range 501).map replJid)).length := by
  have hinj : Function.Injective replJid := by
    intro a b h
    have := congrArg (fun s => s.data.length) h
    simpa [replJid] using this
  have hnd : ((List.range 501).map replJid).Nodup :=
    (List.nodup_range 501).map hinj
  have h := cacheInsertAll_length 0 "inst" ⟨none, 1⟩ (by decide)
    ((List.range 501).map replJid) [] hnd (fun j hj => rfl)
    (fun e he => absurd he (List.not_mem_nil e))
  rw [h.1]
  simp

/-- C8 amended: the cache is keyed by `(sessionId, jid)` and expired
entries are dropped on read, but the 500 bound is not enforced: the
purge triggered at >500 entries removes only entries already expired
at insertion time, so the cache exceeds 500 whenever more than 500
unexpired entries accumulate (see the counterexample).  What does hold:
any expired entry surviving an insertion implies the size stayed within
the bound (i.e. past 500 every remaining entry is unexpired), and a
read deletes and misses an expired entry while returning an unexpired
one unchanged. -/
theorem claim_C8_theorem :
    (∀ (m : Cache) (now : Nat) (iid jid : String) (data : CacheEntry)
        (e : String × CacheEntry),
      e ∈ cacheContactResolve m now iid jid data →
      e.2.expiresAt ≤ now →
      (cacheContactResolve m now iid jid data).length ≤ 500) ∧
    (∀ (m : Cache) (now : Nat) (iid jid : String) (c : CacheEntry),
      lookupKV m (resolveCacheKey iid jid) = some c →
      c.expiresAt ≤ now →
      getCachedContactResolve m now iid jid =
        (none, mapDelete m (resolveCacheKey iid jid))) ∧
    (∀ (m : Cache) (now : Nat) (iid jid : String) (c : CacheEntry),
      lookupKV m (resolveCacheKey iid jid) = some c →
      now < c.expiresAt →
      getCachedContactResolve m now iid jid = (some c, m)) := by
  refine ⟨?_, ?_, ?_⟩
  · intro m now iid jid data e he hexp
    unfold cacheContactResolve at he ⊢
    simp only [] at he ⊢
    by_cases h5 : 500 < (mapSet m (resolveCacheKey iid jid) data).length
    · rw [if_pos h5] at he
      have := (List.mem_filter.mp he).2
      simp only [decide_eq_true_eq] at this
      exact absurd hexp this
    · rw [if_neg h5] at he ⊢
      omega
  · intro m now iid jid c hc hexp
    unfold getCachedContactResolve
    simp only []
    rw [hc]
    simp only [if_pos hexp]
  · intro m now iid jid c hc hexp
    unfold getCachedContactResolve
    simp only []
    rw [hc]
    dsimp only
    rw [if_neg (by omega)]

/-- Concrete instances of the amended C8 theorem's parts. -/
theorem claim_C8_witness :
    (cacheContactResolve [] 0 "i" "j" ⟨none, 0⟩).length ≤ 500 ∧
    getCachedContactResolve [(resolveCacheKey "i" "j", ⟨some "c", 5⟩)] 7 "i" "j" =
      (none, mapDelete [(resolveCacheKey "i" "j", ⟨some "c", 5⟩)] (resolveCacheKey "i" "j")) ∧
    getCachedContactResolve [(resolveCacheKey "i" "j", ⟨some "c", 5⟩)] 3 "i" "j" =
      (some ⟨some "c", 5⟩, [(resolveCacheKey "i" "j", ⟨some "c", 5⟩)]) :=
  ⟨claim_C8_theorem.1 [] 0 "i" "j" ⟨none, 0⟩ (resolveCacheKey "i" "j", ⟨none, 0⟩)
      (by decide) (by decide),
   claim_C8_theorem.2.1 [(resolveCacheKey "i" "j", ⟨some "c", 5⟩)] 7 "i" "j"
      ⟨some "c", 5⟩ (by decide) (by decide),
   claim_C8_theorem.2.2 [(resolveCacheKey "i" "j", ⟨some "c", 5⟩)] 3 "i" "j"
      ⟨some "c", 5⟩ (by decide) (by decide)⟩

/-! ### Claim C9 -/

/-- C9: a successful `/contacts/resolve` call on a cache miss caches
the resolved contact id (`contact_id`, falling back to `id`, `null`
when the response carries neither) for the `(instanceId, jid)` key with
expiry 24 h ahead, so any later resolution of the same pair strictly
inside those 24 hours returns the cached id without issuing the HTTP
call (the returned `httpCalled` flag is `false`) and leaves the cache
unchanged. -/
theorem claim_C9_theorem (m : Cache) (now : Nat) (iid jid : String)
    (resp : ResolveContactResp)
    (hjid : ¬ jid = "")
    (hmiss : (getCachedContactResolve m now iid jid).1 = none) :
    (resolveSenderContactId m now iid jid (.ok resp)).2.2 = true ∧
    (resolveSenderContactId m now iid jid (.ok resp)).1 =
      jsOrStr resp.contact_id resp.id ∧
    (∀ (now2 : Nat) (oc2 : Except ErrObj ResolveContactResp),
      now2 < now + 24 * 60 * 60 * 1000 →
      resolveSenderContactId (resolveSenderContactId m now iid jid (.ok resp)).2.1
          now2 iid jid oc2 =
        (jsOrStr resp.contact_id resp.id,
         (resolveSenderContactId m now iid jid (.ok resp)).2.1, false)) := by
  rcases hget : getCachedContactResolve m now iid jid with ⟨og, m1⟩
  rw [hget] at hmiss
  simp only [] at hmiss
  subst hmiss
  have hfirst : resolveSenderContactId m now iid jid (.ok resp) =
      (jsOrStr resp.contact_id resp.id,
       cacheContactResolve m1 now iid jid
         ⟨jsOrStr resp.contact_id resp.id, now + 24 * 60 * 60 * 1000⟩,
       true) := by
    unfold resolveSenderContactId
    rw [if_neg hjid, hget]
  have hlookup : lookupKV
      (cacheContactResolve m1 now iid jid
        ⟨jsOrStr resp.contact_id resp.id, now + 24 * 60 * 60 * 1000⟩)
      (resolveCacheKey iid jid) =
      some ⟨jsOrStr resp.contact_id resp.id, now + 24 * 60 * 60 * 1000⟩ := by
    unfold cacheContactResolve
    simp only []
    by_cases h5 : 500 < (mapSet m1 (resolveCacheKey iid jid)
        (⟨jsOrStr resp.contact_id resp.id, now + 24 * 60 * 60 * 1000⟩ : CacheEntry)).length
    · rw [if_pos h5]
      exact lookupKV_filter _ _ _ _ (lookupKV_mapSet_self _ _ _) (by simp)
    · rw [if_neg h5]
      exact lookupKV_mapSet_self _ _ _
  refine ⟨by rw [hfirst], by rw [hfirst], ?_⟩
  intro now2 oc2 h2
  rw [hfirst]
  simp only []
  unfold resolveSenderContactId
  rw [if_neg hjid]
  have hcached : getCachedContactResolve
      (cacheContactResolve m1 now iid jid
        ⟨jsOrStr resp.contact_id resp.id, now + 24 * 60 * 60 * 1000⟩)
      now2 iid jid =
      (some ⟨jsOrStr resp.contact_id resp.id, now + 24 * 60 * 60 * 1000⟩,
       cacheContactResolve m1 now iid jid
         ⟨jsOrStr resp.contact_id resp.id, now + 24 * 60 * 60 * 1000⟩) := by
    unfold getCachedContactResolve
    simp only []
    rw [hlookup]
    dsimp only
    rw [if_neg (by omega)]
  rw [hcached]


/-- Concrete instance of the C9 theorem: resolve once at `t = 0`, hit
the cache at `t = 1000` with no HTTP call. -/
theorem claim_C9_witness :
    (resolveSenderContactId [] 0 "i" "j" (.ok ⟨some "c", none⟩)).2.2 = true ∧
    (resolveSenderContactId [] 0 "i" "j" (.ok ⟨some "c", none⟩)).1 =
      jsOrStr (some "c") none ∧
    resolveSenderContactId
        (resolveSenderContactId [] 0 "i" "j" (.ok ⟨some "c", none⟩)).2.1
        1000 "i" "j" (.error ⟨none, "x"⟩) =
      (jsOrStr (some "c") none,
       (resolveSenderContactId [] 0 "i" "j" (.ok ⟨some "c", none⟩)).2.1, false) :=
  ⟨(claim_C9_theorem [] 0 "i" "j" ⟨some "c", none⟩ (by decide) rfl).1,
   (claim_C9_theorem [] 0 "i" "j" ⟨some "c", none⟩ (by decide) rfl).2.1,
   (claim_C9_theorem [] 0 "i" "j" ⟨some "c", none⟩ (by decide) rfl).2.2
     1000 (.error ⟨none, "x"⟩) (by decide)⟩

end WaWorker
